import Mathlib

/-!
Verification of the Kratos Portainer orchestration script (`src/main.py`).

The script is shallowly embedded: every HTTP interaction is mediated by an
oracle `Http : HttpRequest → HttpResponse` supplied by the environment, and
each Python function becomes a Lean function over that oracle.  Python
exceptions are modelled with `Except PyErr` / an `Option PyErr` outcome, and
the orchestrator (the `__main__` block) additionally produces the list of
observable calls it made (fetching logs, notifying, listing containers, ...)
as an `Event` trace, so that temporal claims about call order can be stated.
-/

/-- Python-level exceptions that the script can raise:
`httpError s` is `requests.exceptions.HTTPError` from `raise_for_status`
(carrying the status), `jsonDecodeError` is the error raised by
`response.json()` on a non-JSON body, `keyError k` is a dict `KeyError`,
`indexError` a list `IndexError`, `typeError` a `TypeError` (e.g. iterating
or indexing a non-list/dict), and `nameError` a `NameError` (reading an
unbound variable). -/
inductive PyErr where
  | httpError (status : Nat)
  | jsonDecodeError
  | keyError (k : String)
  | indexError
  | typeError
  | nameError
  deriving DecidableEq, Repr

/-- JSON values, as returned by `response.json()`. -/
inductive JVal where
  | null
  | bool (b : Bool)
  | num (n : Int)
  | str (s : String)
  | arr (xs : List JVal)
  | obj (fields : List (String × JVal))

/-- Python `str()` rendering used by f-strings.  Scalars render as in
Python; the composite renderings are placeholders (no claim formats a list
or dict into a string). -/
def JVal.toPyStr : JVal → String
  | .str s => s
  | .num n => toString n
  | .bool true => "True"
  | .bool false => "False"
  | .null => "None"
  | .arr _ => "<list>"
  | .obj _ => "<dict>"

/-- Python dict subscript `v[k]`: `KeyError` when the key is absent,
`TypeError` when `v` is not a dict. -/
def jsonGet (v : JVal) (k : String) : Except PyErr JVal :=
  match v with
  | .obj fields =>
    match fields.lookup k with
    | some u => .ok u
    | none => .error (.keyError k)
  | _ => .error .typeError

/-- Python list subscript `v[i]`. -/
def jsonIndex (v : JVal) (i : Nat) : Except PyErr JVal :=
  match v with
  | .arr xs =>
    match xs.get? i with
    | some u => .ok u
    | none => .error .indexError
  | _ => .error .typeError

/-- Python `for x in v:` over a JSON value, demanding a list.  (Iterating a
dict would yield its keys and then fail with `TypeError` at the first
subscript; both are modelled as an immediate `TypeError`.) -/
def jsonArr (v : JVal) : Except PyErr (List JVal) :=
  match v with
  | .arr xs => .ok xs
  | _ => .error .typeError

/-- An outbound HTTP request as the script builds it. -/
structure HttpRequest where
  method : String
  url : String
  authorization : Option String := none
  jsonBody : Option JVal := none
  timeout : Option Nat := none

/-- The response the `requests` library hands back: its status code, its raw
text body, and its body parsed as JSON when it is valid JSON (`response.json()`
raises otherwise, modelled by `json = none`). -/
structure HttpResponse where
  status : Nat
  text : String := ""
  json : Option JVal := none

/-- The environment: what the Portainer server answers to each request. -/
abbrev Http := HttpRequest → HttpResponse

/-- `requests.Response.raise_for_status`: raises `HTTPError` exactly for
status codes in [400, 600). -/
def raise_for_status (r : HttpResponse) : Except PyErr Unit :=
  if 400 ≤ r.status ∧ r.status < 600 then .error (.httpError r.status) else .ok ()

/-- `response.json()`: the parsed body, or a decode error for non-JSON. -/
def response_json (r : HttpResponse) : Except PyErr JVal :=
  match r.json with
  | some v => .ok v
  | none => .error .jsonDecodeError

-- Configuration constants of the script (placeholders, as in the source).
def PORTAINER_URL : String := "http://your-portainer-instance:9000/api"
def USERNAME : String := "admin"
def PASSWORD : String := "password"
def ENDPOINT_ID : Nat := 1
def DEBUG : Bool := true

/-- The request `authenticate` sends: `POST {PORTAINER_URL}/auth` with the
credentials payload and a 10-second timeout. -/
def authRequest : HttpRequest :=
  { method := "POST"
    url := PORTAINER_URL ++ "/auth"
    jsonBody := some (.obj [("Username", .str USERNAME), ("Password", .str PASSWORD)])
    timeout := some 10 }

/-- `authenticate()`: posts credentials, `raise_for_status`, then returns
`response.json()["jwt"]`. -/
def authenticate (http : Http) : Except PyErr JVal := do
  let r := http authRequest
  raise_for_status r
  let v ← response_json r
  jsonGet v "jwt"

/-- URL of the log-fetch endpoint for a container. -/
def logsUrl (container_id : String) : String :=
  PORTAINER_URL ++ "/endpoints/" ++ toString ENDPOINT_ID ++ "/docker/containers/"
    ++ container_id ++ "/logs?stdout=true&stderr=true"

/-- The request `fetch_logs` sends. -/
def logsRequest (jwt_token container_id : String) : HttpRequest :=
  { method := "GET"
    url := logsUrl container_id
    authorization := some ("Bearer " ++ jwt_token) }

/-- `fetch_logs(jwt_token, container_id)`: GET the logs endpoint,
`raise_for_status`, return `response.text`. -/
def fetch_logs (http : Http) (jwt_token container_id : String) : Except PyErr String := do
  let r := http (logsRequest jwt_token container_id)
  raise_for_status r
  return r.text

/-- `send_notification(subject, message)`: a no-op stub (`pass`). -/
def send_notification (_subject _message : String) : Unit := ()

/-- The request `start_container` sends. -/
def startRequest (jwt_token container_id : String) : HttpRequest :=
  { method := "POST"
    url := PORTAINER_URL ++ "/endpoints/" ++ toString ENDPOINT_ID ++ "/docker/containers/"
      ++ container_id ++ "/start"
    authorization := some ("Bearer " ++ jwt_token) }

/-- `start_container(jwt_token, container_id)`: POST the start endpoint and
`raise_for_status`.  (Defined for completeness; the default flow never calls
it — the call site is commented out.) -/
def start_container (http : Http) (jwt_token container_id : String) : Except PyErr Unit := do
  let r := http (startRequest jwt_token container_id)
  raise_for_status r

/-- URL of the stack-creation endpoint. -/
def createStackUrl : String :=
  PORTAINER_URL ++ "/stacks?type=2&method=string&endpointId=" ++ toString ENDPOINT_ID

/-- The JSON payload `create_container_from_compose` submits: the hard-coded
stack name `"job-stack"` and the compose text. -/
def createStackPayload (compose_file_content : String) : JVal :=
  .obj [("name", .str "job-stack"), ("stackFileContent", .str compose_file_content)]

/-- The request `create_container_from_compose` sends. -/
def createStackRequest (jwt_token compose_file_content : String) : HttpRequest :=
  { method := "POST"
    url := createStackUrl
    authorization := some ("Bearer " ++ jwt_token)
    jsonBody := some (createStackPayload compose_file_content) }

/-- `create_container_from_compose(jwt_token, compose_file_content)`:
on status exactly 200 or 201 returns `response.json()["Name"]` (which can
itself raise), on any other status returns `None`. -/
def create_container_from_compose (http : Http) (jwt_token compose_file_content : String) :
    Except PyErr (Option JVal) :=
  let r := http (createStackRequest jwt_token compose_file_content)
  if r.status = 200 ∨ r.status = 201 then do
    let v ← response_json r
    let n ← jsonGet v "Name"
    return some n
  else
    return none

/-- The request `get_stacks` sends. -/
def stacksRequest (jwt_token : String) : HttpRequest :=
  { method := "GET"
    url := PORTAINER_URL ++ "/stacks"
    authorization := some ("Bearer " ++ jwt_token) }

/-- `get_stacks(jwt_token)`: GET `/stacks`, `raise_for_status`, return
`response.json()` unchanged (no client-side reordering). -/
def get_stacks (http : Http) (jwt_token : String) : Except PyErr JVal := do
  let r := http (stacksRequest jwt_token)
  raise_for_status r
  response_json r

/-- URL of the container-list endpoint, filtered server-side by the label
`com.docker.compose.project={stack_id}`. -/
def containersUrl (stack_id : String) : String :=
  PORTAINER_URL ++ "/endpoints/" ++ toString ENDPOINT_ID
    ++ "/docker/containers/json?filters=\x7b\"label\": [\"com.docker.compose.project="
    ++ stack_id ++ "\"]\x7d"

/-- The request `get_stack_containers` sends. -/
def containersRequest (jwt_token stack_id : String) : HttpRequest :=
  { method := "GET"
    url := containersUrl stack_id
    authorization := some ("Bearer " ++ jwt_token) }

/-- `get_stack_containers(jwt_token, stack_id)`: GET the filtered container
list, `raise_for_status`, return `response.json()`. -/
def get_stack_containers (http : Http) (jwt_token stack_id : String) : Except PyErr JVal := do
  let r := http (containersRequest jwt_token stack_id)
  raise_for_status r
  response_json r

/-- Observable calls the orchestrator makes, in program order. -/
inductive Event where
  | authCall
  | getStacksCall
  | getContainersCall (stackKey : String)
  | fetchLogsCall (containerId : String)
  | notifyCall (subject message : String)
  | startContainerCall (containerId : String)
  | createStackCall
  deriving DecidableEq, Repr

/-- The field accesses of the inner loop body before any network call:
`print` evaluates `container['Id']`, `container['Names'][0]`,
`container['Image']` in order, then `container_id = container['Id']` is
bound; any of these can raise. -/
def containerFields (container : JVal) : Except PyErr JVal := do
  let _pid ← jsonGet container "Id"
  let names ← jsonGet container "Names"
  let _pn ← jsonIndex names 0
  let _pimg ← jsonGet container "Image"
  jsonGet container "Id"

/-- One iteration of the inner `for container in containers:` body of the
orchestrator: print the container fields, fetch its logs and send them via
notification.  Returns the events emitted before returning or raising, and
the raised exception if any. -/
def containerStep (http : Http) (jwt_token : String) (container : JVal) :
    List Event × Option PyErr :=
  match containerFields container with
  | .error e => ([], some e)
  | .ok cid =>
    let container_id := cid.toPyStr
    match fetch_logs http jwt_token container_id with
    | .error e => ([.fetchLogsCall container_id], some e)
    | .ok logs =>
      let _ := send_notification ("Logs for container " ++ container_id) logs
      ([.fetchLogsCall container_id,
        .notifyCall ("Logs for container " ++ container_id) logs], none)

/-- The inner `for container in containers:` loop: each iteration runs
`containerStep`; an exception aborts the remaining iterations. -/
def containerLoop (http : Http) (jwt_token : String) : List JVal → List Event × Option PyErr
  | [] => ([], none)
  | c :: rest =>
    match containerStep http jwt_token c with
    | (evs, some e) => (evs, some e)
    | (evs, none) =>
      let (evs2, r2) := containerLoop http jwt_token rest
      (evs ++ evs2, r2)

/-- The field accesses of the outer loop body: `print` evaluates
`stack['Id']` and `stack['Name']`, then `stack_id = stack['Name']`. -/
def stackFields (stack : JVal) : Except PyErr JVal := do
  let _pid ← jsonGet stack "Id"
  let _pname ← jsonGet stack "Name"
  jsonGet stack "Name"

/-- One iteration of the outer `for stack in stacks:` body: print the stack
fields, take `stack_id = stack['Name']`, list that stack's containers and run
the inner loop over them. -/
def stackStep (http : Http) (jwt_token : String) (stack : JVal) :
    List Event × Option PyErr :=
  match stackFields stack with
  | .error e => ([], some e)
  | .ok nm =>
    let stack_id := nm.toPyStr
    match get_stack_containers http jwt_token stack_id with
    | .error e => ([.getContainersCall stack_id], some e)
    | .ok cv =>
      match jsonArr cv with
      | .error e => ([.getContainersCall stack_id], some e)
      | .ok containers =>
        let (evs, r) := containerLoop http jwt_token containers
        (Event.getContainersCall stack_id :: evs, r)

/-- The outer `for stack in stacks:` loop. -/
def stackLoop (http : Http) (jwt_token : String) : List JVal → List Event × Option PyErr
  | [] => ([], none)
  | s :: rest =>
    match stackStep http jwt_token s with
    | (evs, some e) => (evs, some e)
    | (evs, none) =>
      let (evs2, r2) := stackLoop http jwt_token rest
      (evs ++ evs2, r2)

/-- The fixed example compose payload built by the orchestrator. -/
def docker_compose_content : String :=
  "\nservices:\n  web:\n    image: nginx:latest\n    ports:\n      - \"1212:80\"\n    "

/-- The field accesses of the stale `print(f"ID: {stack['Id']}, ...")` after
creation: it reuses the outer loop variable `stack`. -/
def staleStackFields (stack : JVal) : Except PyErr JVal := do
  let _pid ← jsonGet stack "Id"
  jsonGet stack "Name"

/-- The post-creation part of the orchestrator: create the new stack; if a
name came back (not `None`), print the stale loop variable `stack` (a
`NameError` if the stack loop never ran), list the new stack's containers
and run the inner loop over them; if `None` came back, do nothing more. -/
def createPhase (http : Http) (jwt_token : String) (lastStack : Option JVal) :
    List Event × Option PyErr :=
  match create_container_from_compose http jwt_token docker_compose_content with
  | .error e => ([.createStackCall], some e)
  | .ok none => ([.createStackCall], none)
  | .ok (some nmv) =>
    match lastStack with
    | none => ([.createStackCall], some .nameError)
    | some stack =>
      match staleStackFields stack with
      | .error e => ([Event.createStackCall], some e)
      | .ok _ =>
        let stack_id := nmv.toPyStr
        match get_stack_containers http jwt_token stack_id with
        | .error e => ([.createStackCall, .getContainersCall stack_id], some e)
        | .ok cv =>
          match jsonArr cv with
          | .error e => ([.createStackCall, .getContainersCall stack_id], some e)
          | .ok containers =>
            let (evs, r) := containerLoop http jwt_token containers
            (Event.createStackCall :: Event.getContainersCall stack_id :: evs, r)

/-- The whole `__main__` block: authenticate, list stacks, loop over them,
then the creation phase.  The top-level `try/except` catches every raised
exception, so the run always terminates; the result is the trace of emitted
events together with the caught exception, if any. -/
def mainRun (http : Http) : List Event × Option PyErr :=
  match authenticate http with
  | .error e => ([.authCall], some e)
  | .ok jwtv =>
    let jwt_token := jwtv.toPyStr
    match get_stacks http jwt_token with
    | .error e => ([.authCall, .getStacksCall], some e)
    | .ok sv =>
      match jsonArr sv with
      | .error e => ([.authCall, .getStacksCall], some e)
      | .ok stackList =>
        match stackLoop http jwt_token stackList with
        | (evs, some e) => (Event.authCall :: Event.getStacksCall :: evs, some e)
        | (evs, none) =>
          let (evs2, r2) := createPhase http jwt_token stackList.getLast?
          (Event.authCall :: Event.getStacksCall :: (evs ++ evs2), r2)

/-- Is this a notification? -/
def isNotify : Event → Bool
  | .notifyCall _ _ => true
  | _ => false

/-- Is this a container start? -/
def isStart : Event → Bool
  | .startContainerCall _ => true
  | _ => false

/-- How many notifications a trace contains. -/
def countNotify (tr : List Event) : Nat := (tr.filter isNotify).length

/-- How many container starts a trace contains. -/
def countStart (tr : List Event) : Nat := (tr.filter isStart).length

/-- The part of a trace strictly after the first stack-creation call
(empty when no creation call occurs). -/
def afterCreate : List Event → List Event
  | [] => []
  | .createStackCall :: rest => rest
  | _ :: rest => afterCreate rest

/-- The end-to-end scenario environment of the spec: one stack `web` with
one container `c1` whose logs are `"hello\n"`; the created `job-stack`
comes back with status 200 and has no containers yet. -/
def c4Http : Http := fun req =>
  if req.url = PORTAINER_URL ++ "/auth" then
    { status := 200, json := some (.obj [("jwt", .str "tok")]) }
  else if req.url = PORTAINER_URL ++ "/stacks" then
    { status := 200, json := some (.arr [.obj [("Id", .str "1"), ("Name", .str "web")]]) }
  else if req.url = containersUrl "web" then
    { status := 200, json := some (.arr [.obj
        [("Id", .str "c1"), ("Names", .arr [.str "/c1"]), ("Image", .str "nginx")]]) }
  else if req.url = logsUrl "c1" then
    { status := 200, text := "hello\n" }
  else if req.url = createStackUrl then
    { status := 200, json := some (.obj [("Name", .str "job-stack")]) }
  else if req.url = containersUrl "job-stack" then
    { status := 200, json := some (.arr []) }
  else
    { status := 404 }

/-- Example container objects for an abort-mid-loop scenario. -/
def cA : JVal := .obj [("Id", .str "a"), ("Names", .arr [.str "/a"]), ("Image", .str "i")]

/-- Second example container; its log fetch will fail. -/
def cB : JVal := .obj [("Id", .str "b"), ("Names", .arr [.str "/b"]), ("Image", .str "i")]

/-- Third example container, never reached. -/
def cC : JVal := .obj [("Id", .str "c"), ("Names", .arr [.str "/c"]), ("Image", .str "i")]

/-- An environment in which fetching the logs of container `b` answers 500
while everything else succeeds. -/
def c2Http : Http := fun req =>
  if req.url = logsUrl "a" then { status := 200, text := "la" }
  else if req.url = logsUrl "b" then { status := 500, text := "err" }
  else { status := 200, text := "x" }

theorem exceptOkBind {ε : Type u} {α β : Type v} (a : α) (f : α → Except ε β) :
    (Except.ok a : Except ε α) >>= f = f a := rfl

theorem exceptErrBind {ε : Type u} {α β : Type v} (e : ε) (f : α → Except ε β) :
    (Except.error e : Except ε α) >>= f = .error e := rfl

theorem raise_for_status_of_lt (r : HttpResponse) (h : ¬ (400 ≤ r.status ∧ r.status < 600)) :
    raise_for_status r = .ok () := if_neg h

theorem raise_for_status_of_err (r : HttpResponse) (h4 : 400 ≤ r.status)
    (h6 : r.status < 600) :
    raise_for_status r = .error (.httpError r.status) := if_pos ⟨h4, h6⟩

/-- C1: `create_container_from_compose` returns the server-reported name on
status exactly 200 or 201 (whenever the 2xx body does carry a `Name`), and
returns `None` — without raising — for every other status. -/
theorem claim_C1_create_status_dichotomy (http : Http) (jwt_token compose : String) :
    ((http (createStackRequest jwt_token compose)).status = 200 ∨
      (http (createStackRequest jwt_token compose)).status = 201 →
      ∀ v nm, (http (createStackRequest jwt_token compose)).json = some v →
        jsonGet v "Name" = .ok nm →
        create_container_from_compose http jwt_token compose = .ok (some nm)) ∧
    ((http (createStackRequest jwt_token compose)).status ≠ 200 →
      (http (createStackRequest jwt_token compose)).status ≠ 201 →
      create_container_from_compose http jwt_token compose = .ok none) := by
  constructor
  · intro hs v nm hjson hname
    simp only [create_container_from_compose]
    rw [if_pos hs]
    simp [response_json, hjson, exceptOkBind, hname]
  · intro h200 h201
    simp only [create_container_from_compose]
    rw [if_neg (by simp [h200, h201])]
    rfl

theorem claim_C1_witness :
    create_container_from_compose (fun _ => { status := 500, text := "boom" }) "t" "c"
      = .ok none ∧
    create_container_from_compose c4Http "t" docker_compose_content
      = .ok (some (.str "job-stack")) :=
  ⟨(claim_C1_create_status_dichotomy (fun _ => { status := 500, text := "boom" }) "t" "c").2
      (by decide) (by decide),
    (claim_C1_create_status_dichotomy c4Http "t" docker_compose_content).1
      (Or.inl rfl) _ _ rfl rfl⟩

/-- C6 (counterexample): a 301 response to `/auth` is not a 2xx status, yet
`authenticate` neither raises nor withholds the token — `raise_for_status`
only raises for 4xx/5xx, so the `jwt` field of the body is returned. -/
theorem claim_C6_counterexample :
    authenticate (fun _ => { status := 301, json := some (.obj [("jwt", .str "tok")]) })
      = .ok (.str "tok") ∧ ¬ (200 ≤ 301 ∧ 301 < 300) := by
  constructor
  · rfl
  · omega

/-- C6 (amended): for every 4xx or 5xx response from `/auth`, `authenticate`
raises an `HTTPError` carrying the status and does not return a token.
(3xx statuses pass `raise_for_status`, hence the amendment from "non-2xx".) -/
theorem claim_C6_auth_error (http : Http)
    (h4 : 400 ≤ (http authRequest).status) (h6 : (http authRequest).status < 600) :
    authenticate http = .error (.httpError (http authRequest).status) := by
  simp only [authenticate]
  rw [raise_for_status_of_err _ h4 h6]
  rfl

theorem claim_C6_witness :
    authenticate (fun _ => { status := 401 }) = .error (.httpError 401) :=
  claim_C6_auth_error (fun _ => { status := 401 }) (by decide) (by decide)

/-- C7: a 2xx response with an empty JSON array body makes
`get_stack_containers` return the empty sequence, not an error. -/
theorem claim_C7_empty_containers (http : Http) (jwt_token stack_id : String)
    (h2 : 200 ≤ (http (containersRequest jwt_token stack_id)).status)
    (h3 : (http (containersRequest jwt_token stack_id)).status < 300)
    (hjson : (http (containersRequest jwt_token stack_id)).json = some (.arr [])) :
    get_stack_containers http jwt_token stack_id = .ok (.arr []) := by
  simp only [get_stack_containers]
  rw [raise_for_status_of_lt _ (by omega)]
  simp [exceptOkBind, response_json, hjson]

theorem claim_C7_witness :
    get_stack_containers (fun _ => { status := 200, json := some (.arr []) }) "t" "web"
      = .ok (.arr []) :=
  claim_C7_empty_containers (fun _ => { status := 200, json := some (.arr []) }) "t" "web"
    (by decide) (by decide) rfl

/-- C8: on a 2xx response `get_stacks` returns the parsed body unchanged —
in particular the empty array gives the empty sequence, and the server's
order is preserved with no client-side sorting. -/
theorem claim_C8_stacks_passthrough (http : Http) (jwt_token : String)
    (h2 : 200 ≤ (http (stacksRequest jwt_token)).status)
    (h3 : (http (stacksRequest jwt_token)).status < 300) :
    ∀ v, (http (stacksRequest jwt_token)).json = some v →
      get_stacks http jwt_token = .ok v := by
  intro v hjson
  simp only [get_stacks]
  rw [raise_for_status_of_lt _ (by omega)]
  simp [exceptOkBind, response_json, hjson]

theorem claim_C8_witness :
    get_stacks (fun _ => { status := 200, json := some (.arr []) }) "t" = .ok (.arr []) :=
  claim_C8_stacks_passthrough (fun _ => { status := 200, json := some (.arr []) }) "t"
    (by decide) (by decide) (.arr []) rfl

/-- C9: the stack-creation request always carries the hard-coded name
`"job-stack"` in its payload, for every compose text and token — the caller
cannot choose the requested name. -/
theorem claim_C9_hardcoded_name (jwt_token compose : String) :
    (createStackRequest jwt_token compose).jsonBody = some (createStackPayload compose) ∧
    jsonGet (createStackPayload compose) "name" = .ok (.str "job-stack") :=
  ⟨rfl, rfl⟩

/-- C10: on a 200/201 response whose body is not JSON, or is JSON without a
`"Name"` key, `create_container_from_compose` raises instead of returning a
name or `None`. -/
theorem claim_C10_success_body_precondition (http : Http) (jwt_token compose : String)
    (hs : (http (createStackRequest jwt_token compose)).status = 200 ∨
      (http (createStackRequest jwt_token compose)).status = 201) :
    ((http (createStackRequest jwt_token compose)).json = none →
      create_container_from_compose http jwt_token compose = .error .jsonDecodeError) ∧
    (∀ v e, (http (createStackRequest jwt_token compose)).json = some v →
      jsonGet v "Name" = .error e →
      create_container_from_compose http jwt_token compose = .error e) := by
  constructor
  · intro hjson
    simp only [create_container_from_compose]
    rw [if_pos hs]
    simp [response_json, hjson, exceptErrBind]
  · intro v e hjson hname
    simp only [create_container_from_compose]
    rw [if_pos hs]
    simp [response_json, hjson, exceptOkBind, hname]

theorem claim_C10_witness :
    create_container_from_compose (fun _ => { status := 200, text := "ok" }) "t" "c"
      = .error .jsonDecodeError ∧
    create_container_from_compose
        (fun _ => { status := 201, json := some (.obj [("Err", .str "x")]) }) "t" "c"
      = .error (.keyError "Name") :=
  ⟨(claim_C10_success_body_precondition (fun _ => { status := 200, text := "ok" })
      "t" "c" (Or.inl rfl)).1 rfl,
    (claim_C10_success_body_precondition
        (fun _ => { status := 201, json := some (.obj [("Err", .str "x")]) })
        "t" "c" (Or.inr rfl)).2 _ _ rfl rfl⟩

/-- C5: the orchestrator's outer loop passes the stack's display `Name`
field — not its `Id` — as the filter key to `get_stack_containers`, and the
resulting request URL carries the label filter
`com.docker.compose.project=<stack Name>`. -/
theorem claim_C5_filter_key_is_name (http : Http) (jwt_token : String)
    (stack idv nmv : JVal)
    (hid : jsonGet stack "Id" = .ok idv) (hnm : jsonGet stack "Name" = .ok nmv) :
    (∃ tl, (stackStep http jwt_token stack).1
        = Event.getContainersCall nmv.toPyStr :: tl) ∧
    (containersRequest jwt_token nmv.toPyStr).url = containersUrl nmv.toPyStr ∧
    containersUrl nmv.toPyStr =
      "http://your-portainer-instance:9000/api/endpoints/1/docker/containers/json?filters=\x7b\"label\": [\"com.docker.compose.project="
        ++ nmv.toPyStr ++ "\"]\x7d" := by
  refine ⟨?_, rfl, ?_⟩
  · have hsf : stackFields stack = .ok nmv := by
      simp only [stackFields, hid, hnm, exceptOkBind]
    simp only [stackStep, hsf]
    rcases hgc : get_stack_containers http jwt_token nmv.toPyStr with e | cv
    · exact ⟨[], rfl⟩
    · rcases hja : jsonArr cv with e2 | cs
      · simp only [hja]
        exact ⟨[], rfl⟩
      · simp only [hja]
        rcases hcl : containerLoop http jwt_token cs with ⟨evs, r⟩
        exact ⟨evs, rfl⟩
  · simp only [containersUrl, PORTAINER_URL, ENDPOINT_ID]
    congr 1

theorem claim_C5_witness :
    (∃ tl, (stackStep c4Http "tok" (.obj [("Id", .str "1"), ("Name", .str "web")])).1
        = Event.getContainersCall "web" :: tl) ∧
    (containersRequest "tok" "web").url = containersUrl "web" ∧
    containersUrl "web" =
      "http://your-portainer-instance:9000/api/endpoints/1/docker/containers/json?filters=\x7b\"label\": [\"com.docker.compose.project="
        ++ "web" ++ "\"]\x7d" :=
  claim_C5_filter_key_is_name c4Http "tok" (.obj [("Id", .str "1"), ("Name", .str "web")])
    (.str "1") (.str "web") rfl rfl

/-- C4: in the spec's end-to-end scenario (one stack `web`, one container
`c1`, logs `"hello\n"`), the orchestrator notifies exactly once, with
subject `"Logs for container c1"` and message `"hello\n"`, and never calls
`start_container`. -/
theorem claim_C4_end_to_end :
    mainRun c4Http =
      ([.authCall, .getStacksCall, .getContainersCall "web", .fetchLogsCall "c1",
        .notifyCall "Logs for container c1" "hello\n", .createStackCall,
        .getContainersCall "job-stack"], none) ∧
    countNotify (mainRun c4Http).1 = 1 ∧
    countStart (mainRun c4Http).1 = 0 :=
  ⟨rfl, rfl, rfl⟩

theorem containerStep_ok_shape (http : Http) (jwt_token : String) (c : JVal)
    (h : (containerStep http jwt_token c).2 = none) :
    ∃ cid logs, containerStep http jwt_token c =
      ([.fetchLogsCall cid, .notifyCall ("Logs for container " ++ cid) logs], none) := by
  rcases hcf : containerFields c with e | cid
  · simp [containerStep, hcf] at h
  · rcases hf : fetch_logs http jwt_token cid.toPyStr with e | logs
    · simp [containerStep, hcf, hf] at h
    · exact ⟨cid.toPyStr, logs, by simp [containerStep, hcf, hf, send_notification]⟩

theorem containerStep_fail_shape (http : Http) (jwt_token : String) (c cidv nv n0 iv : JVal)
    (hid : jsonGet c "Id" = .ok cidv) (hnames : jsonGet c "Names" = .ok nv)
    (hn0 : jsonIndex nv 0 = .ok n0) (himg : jsonGet c "Image" = .ok iv)
    (h4 : 400 ≤ (http (logsRequest jwt_token cidv.toPyStr)).status)
    (h6 : (http (logsRequest jwt_token cidv.toPyStr)).status < 600) :
    containerStep http jwt_token c =
      ([.fetchLogsCall cidv.toPyStr],
        some (.httpError (http (logsRequest jwt_token cidv.toPyStr)).status)) := by
  have hcf : containerFields c = .ok cidv := by
    simp only [containerFields, hid, hnames, hn0, himg, exceptOkBind]
  have hf : fetch_logs http jwt_token cidv.toPyStr
      = .error (.httpError (http (logsRequest jwt_token cidv.toPyStr)).status) := by
    simp only [fetch_logs]
    rw [raise_for_status_of_err _ h4 h6]
    rfl
  simp [containerStep, hcf, hf]

theorem countNotify_step_of_ok (http : Http) (jwt_token : String) (c : JVal)
    (h : (containerStep http jwt_token c).2 = none) :
    countNotify (containerStep http jwt_token c).1 = 1 := by
  obtain ⟨cid, logs, hc⟩ := containerStep_ok_shape http jwt_token c h
  rw [hc]
  rfl

theorem countNotify_flatMap_steps (http : Http) (jwt_token : String) :
    ∀ l : List JVal, (∀ c' ∈ l, (containerStep http jwt_token c').2 = none) →
      countNotify (l.flatMap fun c' => (containerStep http jwt_token c').1) = l.length := by
  intro l
  induction l with
  | nil => intro _; rfl
  | cons p ps ih =>
    intro hp
    simp only [List.flatMap_cons, countNotify, List.filter_append, List.length_append,
      List.length_cons]
    have h1 : (List.filter isNotify (containerStep http jwt_token p).1).length = 1 :=
      countNotify_step_of_ok http jwt_token p (hp p (List.mem_cons_self _ _))
    have h2 := ih fun c' hc' => hp c' (List.mem_cons_of_mem _ hc')
    simp only [countNotify] at h2
    omega

/-- C2: if fetching the logs of container `c` fails mid-loop (every earlier
container's step succeeded, and the server answers `c`'s log request with a
4xx/5xx status), the inner loop stops at that failure: its trace is exactly
the successful earlier steps followed by the failing fetch call, the raised
`HTTPError` propagates, each earlier container was notified exactly once,
and nothing at all — in particular no notification — happens afterwards. -/
theorem claim_C2_abort_mid_loop (http : Http) (jwt_token : String)
    (pre post : List JVal) (c cidv nv n0 iv : JVal)
    (hpre : ∀ c' ∈ pre, (containerStep http jwt_token c').2 = none)
    (hid : jsonGet c "Id" = .ok cidv) (hnames : jsonGet c "Names" = .ok nv)
    (hn0 : jsonIndex nv 0 = .ok n0) (himg : jsonGet c "Image" = .ok iv)
    (h4 : 400 ≤ (http (logsRequest jwt_token cidv.toPyStr)).status)
    (h6 : (http (logsRequest jwt_token cidv.toPyStr)).status < 600) :
    containerLoop http jwt_token (pre ++ c :: post)
      = (pre.flatMap (fun c' => (containerStep http jwt_token c').1)
          ++ [.fetchLogsCall cidv.toPyStr],
        some (.httpError (http (logsRequest jwt_token cidv.toPyStr)).status)) ∧
    countNotify (containerLoop http jwt_token (pre ++ c :: post)).1 = pre.length ∧
    ∀ c' ∈ pre, countNotify (containerStep http jwt_token c').1 = 1 := by
  have hstep := containerStep_fail_shape http jwt_token c cidv nv n0 iv hid hnames hn0 himg h4 h6
  have key : ∀ pre' : List JVal, (∀ c' ∈ pre', (containerStep http jwt_token c').2 = none) →
      containerLoop http jwt_token (pre' ++ c :: post)
        = (pre'.flatMap (fun c' => (containerStep http jwt_token c').1)
            ++ [.fetchLogsCall cidv.toPyStr],
          some (.httpError (http (logsRequest jwt_token cidv.toPyStr)).status)) := by
    intro pre'
    induction pre' with
    | nil =>
      intro _
      simp only [List.nil_append, List.flatMap_nil]
      simp [containerLoop, hstep]
    | cons p ps ih =>
      intro hp
      obtain ⟨cid, logs, hps⟩ :=
        containerStep_ok_shape http jwt_token p (hp p (List.mem_cons_self _ _))
      rw [List.cons_append]
      simp only [containerLoop, hps]
      rw [ih fun c' hc' => hp c' (List.mem_cons_of_mem _ hc')]
      simp [List.flatMap_cons, hps]
  refine ⟨key pre hpre, ?_, ?_⟩
  · rw [key pre hpre]
    simp only [countNotify, List.filter_append, List.length_append]
    have h2 := countNotify_flatMap_steps http jwt_token pre hpre
    simp only [countNotify] at h2
    have h3 : (List.filter isNotify [Event.fetchLogsCall cidv.toPyStr]).length = 0 := rfl
    omega
  · intro c' hc'
    exact countNotify_step_of_ok http jwt_token c' (hpre c' hc')

theorem claim_C2_witness :
    containerLoop c2Http "t" ([cA] ++ cB :: [cC])
      = ([cA].flatMap (fun c' => (containerStep c2Http "t" c').1)
          ++ [.fetchLogsCall "b"],
        some (.httpError 500)) ∧
    countNotify (containerLoop c2Http "t" ([cA] ++ cB :: [cC])).1 = 1 ∧
    ∀ c' ∈ [cA], countNotify (containerStep c2Http "t" c').1 = 1 :=
  claim_C2_abort_mid_loop c2Http "t" [cA] [cC] cB (.str "b") (.arr [.str "/b"]) (.str "/b")
    (.str "i")
    (by intro c' hc'; rw [List.mem_singleton] at hc'; subst hc'; rfl)
    rfl rfl rfl rfl (by decide) (by decide)

theorem containerStep_no_create (http : Http) (jwt_token : String) (c : JVal) :
    Event.createStackCall ∉ (containerStep http jwt_token c).1 := by
  rcases hcf : containerFields c with e | cid
  · simp [containerStep, hcf]
  · rcases hf : fetch_logs http jwt_token cid.toPyStr with e | logs
    · simp [containerStep, hcf, hf]
    · simp [containerStep, hcf, hf]

theorem containerLoop_no_create (http : Http) (jwt_token : String) :
    ∀ cs : List JVal, Event.createStackCall ∉ (containerLoop http jwt_token cs).1 := by
  intro cs
  induction cs with
  | nil => simp [containerLoop]
  | cons c rest ih =>
    have hc := containerStep_no_create http jwt_token c
    rcases hstep : containerStep http jwt_token c with ⟨evs, r⟩
    rw [hstep] at hc
    cases r with
    | some e => simpa [containerLoop, hstep] using hc
    | none =>
      rcases hloop : containerLoop http jwt_token rest with ⟨evs2, r2⟩
      rw [hloop] at ih
      simp only [containerLoop, hstep, hloop, List.mem_append]
      intro hmem
      rcases hmem with hmem | hmem
      · exact hc hmem
      · exact ih hmem

theorem stackStep_no_create (http : Http) (jwt_token : String) (s : JVal) :
    Event.createStackCall ∉ (stackStep http jwt_token s).1 := by
  rcases hsf : stackFields s with e | nm
  · simp [stackStep, hsf]
  · rcases hgc : get_stack_containers http jwt_token nm.toPyStr with e | cv
    · simp [stackStep, hsf, hgc]
    · rcases hja : jsonArr cv with e2 | cs
      · simp [stackStep, hsf, hgc, hja]
      · have hcl := containerLoop_no_create http jwt_token cs
        rcases hloop : containerLoop http jwt_token cs with ⟨evs, r⟩
        rw [hloop] at hcl
        simp only [stackStep, hsf, hgc, hja, hloop, List.mem_cons]
        intro hmem
        rcases hmem with hmem | hmem
        · exact Event.noConfusion hmem
        · exact hcl hmem

theorem stackLoop_no_create (http : Http) (jwt_token : String) :
    ∀ sl : List JVal, Event.createStackCall ∉ (stackLoop http jwt_token sl).1 := by
  intro sl
  induction sl with
  | nil => simp [stackLoop]
  | cons s rest ih =>
    have hs := stackStep_no_create http jwt_token s
    rcases hstep : stackStep http jwt_token s with ⟨evs, r⟩
    rw [hstep] at hs
    cases r with
    | some e => simpa [stackLoop, hstep] using hs
    | none =>
      rcases hloop : stackLoop http jwt_token rest with ⟨evs2, r2⟩
      rw [hloop] at ih
      simp only [stackLoop, hstep, hloop, List.mem_append]
      intro hmem
      rcases hmem with hmem | hmem
      · exact hs hmem
      · exact ih hmem

theorem afterCreate_append_of_not_mem (l l2 : List Event)
    (h : Event.createStackCall ∉ l) :
    afterCreate (l ++ l2) = afterCreate l2 := by
  induction l with
  | nil => rfl
  | cons e es ih =>
    have he : Event.createStackCall ∉ es := fun hm => h (List.mem_cons_of_mem _ hm)
    rw [List.cons_append]
    cases e with
    | createStackCall => exact absurd (List.mem_cons_self _ _) h
    | authCall => exact ih he
    | getStacksCall => exact ih he
    | getContainersCall k => exact ih he
    | fetchLogsCall k => exact ih he
    | notifyCall s m => exact ih he
    | startContainerCall k => exact ih he

theorem afterCreate_eq_nil_of_not_mem (l : List Event)
    (h : Event.createStackCall ∉ l) :
    afterCreate l = [] := by
  have := afterCreate_append_of_not_mem l [] h
  rwa [List.append_nil] at this

theorem create_none_of_status (http : Http) (jwt_token compose : String)
    (h200 : (http (createStackRequest jwt_token compose)).status ≠ 200)
    (h201 : (http (createStackRequest jwt_token compose)).status ≠ 201) :
    create_container_from_compose http jwt_token compose = .ok none := by
  simp only [create_container_from_compose]
  rw [if_neg (by simp [h200, h201])]
  rfl

/-- C3: when the server answers the stack-creation request with any status
other than 200/201 (so `create_container_from_compose` returns `None`), the
orchestrator's trace contains no event at all after the creation call: the
whole post-creation branch (listing the new stack's containers, fetching
logs, notifying) is skipped. -/
theorem claim_C3_skip_after_absent_create (http : Http)
    (h : ∀ jwt_token : String,
      (http (createStackRequest jwt_token docker_compose_content)).status ≠ 200 ∧
      (http (createStackRequest jwt_token docker_compose_content)).status ≠ 201) :
    afterCreate (mainRun http).1 = [] := by
  rcases hauth : authenticate http with e | jwtv
  · simp [mainRun, hauth, afterCreate]
  · rcases hst : get_stacks http jwtv.toPyStr with e | sv
    · simp [mainRun, hauth, hst, afterCreate]
    · rcases hja : jsonArr sv with e | stackList
      · simp [mainRun, hauth, hst, hja, afterCreate]
      · have hnc := stackLoop_no_create http jwtv.toPyStr stackList
        rcases hsl : stackLoop http jwtv.toPyStr stackList with ⟨evs, r⟩
        rw [hsl] at hnc
        cases r with
        | some e =>
          simp only [mainRun, hauth, hst, hja, hsl]
          exact afterCreate_eq_nil_of_not_mem evs hnc
        | none =>
          have hcp : createPhase http jwtv.toPyStr stackList.getLast?
              = ([Event.createStackCall], none) := by
            simp only [createPhase,
              create_none_of_status http jwtv.toPyStr docker_compose_content
                (h jwtv.toPyStr).1 (h jwtv.toPyStr).2]
          simp only [mainRun, hauth, hst, hja, hsl, hcp]
          rw [show afterCreate (Event.authCall :: Event.getStacksCall
              :: (evs ++ [Event.createStackCall]))
            = afterCreate (evs ++ [Event.createStackCall]) from rfl]
          rw [afterCreate_append_of_not_mem evs _ hnc]
          rfl

theorem claim_C3_witness :
    afterCreate (mainRun (fun _ => { status := 500 })).1 = [] :=
  claim_C3_skip_after_absent_create (fun _ => { status := 500 })
    (fun _ => ⟨by show (500 : Nat) ≠ 200; decide, by show (500 : Nat) ≠ 201; decide⟩)
